import Mathlib

/-!
Shallow embedding of the lastuser OAuth2 authorization server:
the data model of `lastuserapp/models/client.py` and the two endpoint
handlers of `lastuserapp/views/oauth.py` (`oauth_authorize` for `/auth`
and `oauth_token` for `/token`).

Modelling conventions:
* SQLAlchemy rows become structures carrying the columns the oauth views
  read, plus the `id` primary key from `BaseMixin`; the session becomes an
  explicit `DB` value of row lists, `Model.query.filter_by(...).first()`
  becomes `List.find?`, `db.session.add` appends, `db.session.delete`
  filters the row out by `id`.
* Optional HTTP form/query parameters are `Option String`;
  Python truthiness of such a value (`if not x`) is `optTruthy`.
* The space-joined `_scope` column together with its split/join accessors
  round-trips every non-empty list of space-free tokens (the only lists the
  views ever store, since they come from `str.split(' ')`), so `scope` is
  carried directly as `List String`.
* `datetime.utcnow()` is an `Int` count of seconds supplied in `Env`;
  external collaborators (`getuser`, `User.password_is`, the
  `urlparse` hostname extractor) and the fresh secrets from
  `newid`/`newsecret` are likewise fields of `Env`.
* Response decoration not touched by any claim (flash-message relay,
  `userinfo`, `expires_in`/`refresh_token` emission, the echoed `state`
  parameter, the consent-page resource listing) is omitted; each omission
  is noted at the definition it concerns.
-/

namespace Lastuser

/-- HTTP method of a request (`/auth` is routed for GET and POST). -/
inductive Method where
  | GET
  | POST
deriving Repr, DecidableEq, BEq

/-- `Client` row (OAuth client applications): the columns read by the
oauth views. -/
structure Client where
  id : Nat
  key : String
  secret : String
  redirect_uri : String
  active : Bool
  allow_any_login : Bool
  trusted : Bool
deriving Repr, DecidableEq

/-- `Resource` row: resources provided by client applications; `name` is
globally unique. -/
structure Resource where
  id : Nat
  name : String
  client_id : Nat
  siteresource : Bool
  trusted : Bool
deriving Repr, DecidableEq

/-- `ResourceAction` row: actions on a resource, unique per
`(name, resource_id)`. -/
structure ResourceAction where
  id : Nat
  name : String
  resource_id : Nat
deriving Repr, DecidableEq

/-- `AuthCode` row: short-lived authorization codes. `created_at` comes
from `BaseMixin`; the `used` column exists in the model but is never read
or written by the views. -/
structure AuthCode where
  id : Nat
  user_id : Nat
  client_id : Nat
  code : String
  scope : List String
  redirect_uri : String
  used : Bool
  created_at : Int
deriving Repr, DecidableEq

/-- `AuthToken` row: access tokens; at most one per `(user_id, client_id)`
by table constraint, `user_id` is NULL for client-only grants. -/
structure AuthToken where
  id : Nat
  user_id : Option Nat
  client_id : Nat
  token : String
  token_type : String
  secret : Option String
  scope : List String
  validity : Nat
  refresh_token : String
deriving Repr, DecidableEq

/-- `UserClientPermissions` row: which users may use a client and with
which permission tokens. -/
structure UserClientPermissions where
  id : Nat
  user_id : Nat
  client_id : Nat
  permissions : String
deriving Repr, DecidableEq

/-- The persistent store: one list per table the oauth views touch. -/
structure DB where
  clients : List Client
  resources : List Resource
  resourceactions : List ResourceAction
  authcodes : List AuthCode
  authtokens : List AuthToken
  permissions : List UserClientPermissions
deriving Repr, DecidableEq

/-- Request-ambient external collaborators: the clock, the hostname
extractor used by the redirect-URI cross-check, the user store
(`getuser` / `User.password_is`), and the fresh identifiers produced by
`newid` / `newsecret` during this request. -/
structure Env where
  now : Int
  hostname : String → Option String
  getuser : String → Option Nat
  password_is : Nat → String → Bool
  freshCode : String
  freshToken : String
  freshRefresh : String
  freshSecret : String
  freshId : Nat

/-- Python truthiness of an optional string parameter: `None` and the
empty string are falsy. -/
def optTruthy (x : Option String) : Bool :=
  !(x.getD "" == "")

/-- Python `str.split(sep)` with a one-character separator, on the
character list of the string: split at every occurrence of `sep` and keep
empty pieces, so the result is never empty (`''.split(' ') == ['']`). -/
def splitChars (sep : Char) : List Char → List (List Char)
  | [] => [[]]
  | c :: cs =>
    let rest := splitChars sep cs
    if c == sep then
      [] :: rest
    else
      match rest with
      | [] => [[c]]
      | piece :: more => (c :: piece) :: more

/-- Python `str.split(sep)` with a one-character separator. -/
def pySplit (s : String) (sep : Char) : List String :=
  (splitChars sep s.toList).map (fun cs => String.mk cs)

/-- Python `sep in s` for a one-character needle. -/
def pyContainsChar (s : String) (sep : Char) : Bool :=
  s.toList.contains sep

/-- `list(set(a).union(set(b)))`: the union of two scope-token lists as a
set. Python materialises the set in unspecified order; the model uses the
canonical first-occurrence order, which denotes the same set. -/
def scopeUnion (a b : List String) : List String :=
  (a ++ b).dedup

/-- `AuthToken.add_scope`: extend the stored scope by set union with the
additional tokens. -/
def AuthToken.add_scope (t : AuthToken) (additional : List String) : AuthToken :=
  { t with scope := scopeUnion t.scope additional }

/-- The keyword arguments accepted by the `AuthToken` constructor, with the
column defaults of the model; only the fields the views ever pass are
given non-trivial values at call sites. -/
structure AuthTokenKwargs where
  id : Nat := 0
  user_id : Option Nat := none
  client_id : Nat := 0
  token : String := ""
  token_type : String := "bearer"
  secret : Option String := none
  scope : List String := []
  validity : Nat := 0
  refresh_token : String := ""
deriving Repr, DecidableEq

/-- `super(AuthToken, self).__init__(**kwargs)`: populate the row from the
keyword arguments (any caller-supplied `token`, `refresh_token`, `secret`
land here first). -/
def AuthToken.applyKwargs (kwargs : AuthTokenKwargs) : AuthToken :=
  { id := kwargs.id
    user_id := kwargs.user_id
    client_id := kwargs.client_id
    token := kwargs.token
    token_type := kwargs.token_type
    secret := kwargs.secret
    scope := kwargs.scope
    validity := kwargs.validity
    refresh_token := kwargs.refresh_token }

/-- `AuthToken.__init__`: apply the keyword arguments, then overwrite
`token` and `refresh_token` with `newid()` and `secret` with
`newsecret()`. -/
def AuthToken.init (kwargs : AuthTokenKwargs)
    (freshToken freshRefresh freshSecret : String) : AuthToken :=
  { AuthToken.applyKwargs kwargs with
      token := freshToken
      refresh_token := freshRefresh
      secret := some freshSecret }

/-- Replace the first element satisfying `p` by its image under `f`
(a SQLAlchemy in-place row mutation). -/
def replaceFirst (p : α → Bool) (f : α → α) : List α → List α
  | [] => []
  | x :: xs => if p x then f x :: xs else x :: replaceFirst p f xs

/-- The filter used by `AuthToken.query.filter_by(user=user, client=client)`. -/
def tokenPred (user : Option Nat) (clientId : Nat) (t : AuthToken) : Bool :=
  t.user_id == user && t.client_id == clientId

/-- `oauth_make_token(user, client, scope)`: reuse and extend the existing
token row for `(user, client)` when there is one, otherwise create a new
row through the `AuthToken` constructor. -/
def oauth_make_token (db : DB) (env : Env) (user : Option Nat) (client : Client)
    (scope : List String) : AuthToken × DB :=
  match db.authtokens.find? (tokenPred user client.id) with
  | some token =>
      let updated := replaceFirst (tokenPred user client.id)
        (fun t => t.add_scope scope) db.authtokens
      (token.add_scope scope, { db with authtokens := updated })
  | none =>
      let token := AuthToken.init
        { id := env.freshId, user_id := user, client_id := client.id,
          scope := scope }
        env.freshToken env.freshRefresh env.freshSecret
      (token, { db with authtokens := db.authtokens ++ [token] })

/-- Outcome of a `/token` request: a JSON error body
(`oauth_token_error`: error code plus optional description) or a JSON
success body (`oauth_token_success`: the access token, its type and its
scope; on the wire the scope list is space-joined). -/
inductive TokenOutcome where
  | tokError (error : String) (error_description : Option String)
  | tokSuccess (access_token : String) (token_type : String) (scope : List String)
deriving Repr, DecidableEq

/-- `oauth_token_success(token)`: the success response. The flash-message
relay to trusted clients, the `userinfo` parameter, and the
`expires_in`/`refresh_token` fields (sent only when `validity ≠ 0`, and
every token the views make keeps the default validity 0) are response
decoration not touched by any claim and are omitted. -/
def oauth_token_success (db : DB) (token : AuthToken) : TokenOutcome × DB :=
  (TokenOutcome.tokSuccess token.token token.token_type token.scope, db)

/-- A `/token` request: the form fields plus the optional HTTP Basic
credential pair (username, password). -/
structure TokenRequest where
  grant_type : Option String
  client_id : Option String
  basicAuth : Option (String × String)
  form_client_secret : Option String
  scope_param : Option String
  code : Option String
  redirect_uri : Option String
  username : Option String
  password : Option String
deriving Repr, DecidableEq

/-- The `grant_type == 'authorization_code'` branch of `oauth_token`.
Note that on the success path the matched `AuthCode` row is neither
deleted nor marked `used`. -/
def authorizationCodeGrant (db : DB) (env : Env) (req : TokenRequest)
    (client : Client) (scope : List String) : TokenOutcome × DB :=
  match req.code.bind
      (fun c => db.authcodes.find? (fun ac => ac.code == c && ac.client_id == client.id)) with
  | none => (TokenOutcome.tokError "invalid_grant" (some "Unknown auth code"), db)
  | some authcode =>
    if authcode.created_at < env.now - 60 then
      (TokenOutcome.tokError "invalid_grant" (some "Expired auth code"),
       { db with authcodes := db.authcodes.filter (fun ac => ac.id != authcode.id) })
    else if scope.isEmpty || scope.headD "" == "" then
      (TokenOutcome.tokError "invalid_scope" (some "Scope is blank"), db)
    else if !(scope.all (fun s => authcode.scope.contains s)) then
      (TokenOutcome.tokError "invalid_scope" (some "Scope expanded"), db)
    else
      let scope := authcode.scope
      if req.redirect_uri != some authcode.redirect_uri then
        (TokenOutcome.tokError "invalid_client" (some "redirect_uri does not match"), db)
      else
        let res := oauth_make_token db env (some authcode.user_id) client scope
        oauth_token_success res.2 res.1

/-- The `grant_type == 'password'` branch of `oauth_token` (the leading
trusted-client re-check mirrors the source, though the dispatcher already
rejected untrusted clients for this grant type). -/
def passwordGrant (db : DB) (env : Env) (req : TokenRequest)
    (client : Client) (scope : List String) : TokenOutcome × DB :=
  if !client.trusted then
    (TokenOutcome.tokError "unauthorized_client"
      (some "Client is not trusted for password grant_type"), db)
  else if !(optTruthy req.username) || !(optTruthy req.password) then
    (TokenOutcome.tokError "invalid_request" (some "Username or password not provided"), db)
  else
    match env.getuser (req.username.getD "") with
    | none => (TokenOutcome.tokError "invalid_client" (some "No such user"), db)
    | some uid =>
      if !(env.password_is uid (req.password.getD "")) then
        (TokenOutcome.tokError "invalid_client" (some "Password mismatch"), db)
      else
        let res := oauth_make_token db env (some uid) client scope
        oauth_token_success res.2 res.1

/-- `oauth_token`: the `/token` endpoint. The effective client secret comes
from the HTTP Basic password when a Basic credential is present, else from
the `client_secret` form field; `scope` is the space-split of the `scope`
form field (defaulted to the empty string). -/
def oauth_token (db : DB) (env : Env) (req : TokenRequest) : TokenOutcome × DB :=
  let client_secret : Option String :=
    match req.basicAuth with
    | some ba => some ba.2
    | none => req.form_client_secret
  let scope := pySplit (req.scope_param.getD "") (Char.ofNat 32)
  if (match req.basicAuth with
      | some ba => req.client_id != some ba.1
      | none => false) then
    (TokenOutcome.tokError "invalid_request" (some "client_id does not match HTTP headers"), db)
  else if !(optTruthy req.grant_type) || !(optTruthy req.client_id)
      || !(optTruthy client_secret) then
    (TokenOutcome.tokError "invalid_request"
      (some "Missing one of grant_type, client_id or client_secret"), db)
  else if !(["authorization_code", "client_credentials", "password"].contains
      (req.grant_type.getD "")) then
    (TokenOutcome.tokError "unsupported_grant_type" none, db)
  else
    match db.clients.find? (fun c => c.key == req.client_id.getD "") with
    | none => (TokenOutcome.tokError "invalid_client" (some "Unknown client_id"), db)
    | some client =>
      if !client.active then
        (TokenOutcome.tokError "invalid_client" (some "Unknown client_id"), db)
      else if client_secret.getD "" != client.secret then
        (TokenOutcome.tokError "invalid_client" (some "client_secret mismatch"), db)
      else if req.grant_type == some "password" && !client.trusted then
        (TokenOutcome.tokError "unauthorized_client"
          (some "Client not trusted for password grant_type"), db)
      else if req.grant_type == some "client_credentials" then
        let res := oauth_make_token db env none client scope
        oauth_token_success res.2 res.1
      else if req.grant_type == some "authorization_code" then
        authorizationCodeGrant db env req client scope
      else
        passwordGrant db env req client scope

/-- Outcome of an `/auth` request: a direct 403 page (`oauth_auth_403`,
used before a redirect target is known), an error redirect
(`oauth_auth_error`: resolved redirect URI, error code, optional
description — the echoed `state` and the `error_uri` parameter, always
absent in these views, are omitted), a success redirect carrying the fresh
authorization code (`oauth_auth_success`), or a render of the consent
form (`authorize.html`). -/
inductive AuthOutcome where
  | http403 (reason : String)
  | errorRedirect (uri : String) (error : String) (error_description : Option String)
  | successRedirect (uri : String) (code : String)
  | renderForm
deriving Repr, DecidableEq

/-- An `/auth` request: the query parameters, the HTTP method, and the
consent-form submission as seen by Flask-WTF (`formValid` is the result of
`form.validate_on_submit()`, `formAccept`/`formDeny` whether the `accept`
or `deny` submit field is present in the POST body). -/
structure AuthRequest where
  method : Method
  response_type : Option String
  client_id : Option String
  redirect_uri : Option String
  scope_param : Option String
  formValid : Bool
  formAccept : Bool
  formDeny : Bool
deriving Repr, DecidableEq

/-- One iteration of the Validation 3.2 scope loop of `oauth_authorize`:
the checks applied to a single scope item. Returns the
`error_description` the loop would return for this item (every failure in
the loop is reported as `invalid_scope`), or `none` when the item passes.
The reserved identity tokens `id` and `email` bypass every check; an
action part must be truthy (non-empty) to trigger the action lookup. -/
def validateScopeItem (db : DB) (client : Client) (item : String) : Option String :=
  if item == "id" || item == "email" then
    none
  else
    let parsed : Except String (String × Option String) :=
      if pyContainsChar item (Char.ofNat 47) then
        match pySplit item (Char.ofNat 47) with
        | [resource_name, action_name] => Except.ok (resource_name, some action_name)
        | _ => Except.error ("Too many / characters in " ++ item ++ " in scope")
      else
        Except.ok (item, none)
    match parsed with
    | Except.error e => some e
    | Except.ok (resource_name, action_name) =>
      match db.resources.find? (fun r => r.name == resource_name) with
      | none => some ("Unknown resource \x27" ++ resource_name ++ "\x27 in scope")
      | some resource =>
        if resource.trusted && !client.trusted then
          some ("This application does not have access to resource \x27"
            ++ resource_name ++ "\x27 in scope")
        else
          match action_name with
          | some an =>
            if an != "" then
              match db.resourceactions.find?
                  (fun a => a.name == an && a.resource_id == resource.id) with
              | none => some ("Unknown action \x27" ++ an ++ "\x27 on resource \x27"
                  ++ resource_name ++ "\x27 in scope")
              | some _ => none
            else
              none
          | none => none

/-- Validation 3.2 of `oauth_authorize`: the scope loop. Each item is
checked in order; the first failure returns its description immediately
(the loop body `return`s). The `resources` accumulator the loop also
builds feeds only the consent-page template and is omitted. -/
def validateScopeItems (db : DB) (client : Client) : List String → Option String
  | [] => none
  | item :: rest =>
    match validateScopeItem db client item with
    | some e => some e
    | none => validateScopeItems db client rest

/-- `oauth_auth_success` together with `oauth_make_auth_code`: persist a
fresh `AuthCode` bound to (user, client, scope, redirect_uri), stamped with
the current time, and redirect with the code. The flash-message
save/discard side effect touches only `UserFlashMessage` rows, which no
claim reads on this path; it is omitted. -/
def oauth_auth_success (db : DB) (env : Env) (userId : Nat) (client : Client)
    (ruri : String) (scope : List String) : AuthOutcome × DB :=
  let authcode : AuthCode :=
    { id := env.freshId, user_id := userId, client_id := client.id,
      code := env.freshCode, scope := scope, redirect_uri := ruri,
      used := false, created_at := env.now }
  (AuthOutcome.successRedirect ruri env.freshCode,
   { db with authcodes := db.authcodes ++ [authcode] })

/-- `oauth_authorize`: the `/auth` endpoint (behind `requires_login`, so an
authenticated `userId` is always present). `scope` is the space-split of
the `scope` query parameter defaulted to the empty string. -/
def oauth_authorize (db : DB) (env : Env) (userId : Nat) (req : AuthRequest) :
    AuthOutcome × DB :=
  let scope := pySplit (req.scope_param.getD "") (Char.ofNat 32)
  if !(optTruthy req.client_id) then
    if optTruthy req.redirect_uri then
      (AuthOutcome.errorRedirect (req.redirect_uri.getD "") "invalid_request"
        (some "client_id missing"), db)
    else
      (AuthOutcome.http403 "Missing client_id", db)
  else
    match db.clients.find? (fun c => c.key == req.client_id.getD "") with
    | none =>
      if optTruthy req.redirect_uri then
        (AuthOutcome.errorRedirect (req.redirect_uri.getD "") "unauthorized_client" none, db)
      else
        (AuthOutcome.http403 "Unknown client_id", db)
    | some client =>
      if !client.allow_any_login &&
          (db.permissions.find?
            (fun p => p.user_id == userId && p.client_id == client.id)).isNone then
        (AuthOutcome.errorRedirect (req.redirect_uri.getD "") "invalid_scope"
          (some "You do not have access to this application"), db)
      else if !client.active then
        (AuthOutcome.errorRedirect (req.redirect_uri.getD "") "unauthorized_client" none, db)
      else
        let ruri := if !(optTruthy req.redirect_uri) then client.redirect_uri
          else req.redirect_uri.getD ""
        if optTruthy req.redirect_uri && req.redirect_uri.getD "" != client.redirect_uri
            && env.hostname (req.redirect_uri.getD "") != env.hostname client.redirect_uri then
          (AuthOutcome.errorRedirect ruri "invalid_request"
            (some "Redirect URI hostname doesn\x27t match"), db)
        else if !(optTruthy req.response_type) then
          (AuthOutcome.errorRedirect ruri "invalid_request" (some "response_type missing"), db)
        else if req.response_type.getD "" != "code" then
          (AuthOutcome.errorRedirect ruri "unsupported_response_type" none, db)
        else if scope.isEmpty then
          (AuthOutcome.errorRedirect ruri "invalid_request" (some "Scope not specified"), db)
        else
          match validateScopeItems db client scope with
          | some desc => (AuthOutcome.errorRedirect ruri "invalid_scope" (some desc), db)
          | none =>
            let skipByToken :=
              match db.authtokens.find? (tokenPred (some userId) client.id) with
              | some existing => scope.all (fun s => existing.scope.contains s)
              | none => false
            if req.method == Method.GET && client.trusted then
              oauth_auth_success db env userId client ruri scope
            else if skipByToken then
              oauth_auth_success db env userId client ruri scope
            else if req.formValid then
              if req.formAccept then
                oauth_auth_success db env userId client ruri scope
              else if req.formDeny then
                (AuthOutcome.errorRedirect ruri "access_denied" none, db)
              else
                (AuthOutcome.renderForm, db)
            else
              (AuthOutcome.renderForm, db)

/-! ### Derived predicates and helper lemmas -/

/-- The resource a scope item names: the item's resource-name part (the
bare item, or the first half of a well-formed `resource/action` pair)
looked up in the resource table, following the parse of Validation 3.2.
The reserved identity tokens `id` and `email` name no resource, nor does
a malformed item with more than one `/`. -/
def itemResource (db : DB) (item : String) : Option Resource :=
  if item == "id" || item == "email" then
    none
  else if pyContainsChar item (Char.ofNat 47) then
    match pySplit item (Char.ofNat 47) with
    | [resource_name, _] => db.resources.find? (fun r => r.name == resource_name)
    | _ => none
  else
    db.resources.find? (fun r => r.name == item)

/-- The `authtoken` table invariant behind
`UniqueConstraint("user_id", "client_id")`: at most one row per
`(user_id, client_id)` pair. -/
def tokenPairUnique (tokens : List AuthToken) : Prop :=
  ∀ u c, (tokens.filter (fun t => t.user_id == u && t.client_id == c)).length ≤ 1

lemma replaceFirst_length {α : Type} (p : α → Bool) (f : α → α) :
    ∀ l : List α, (replaceFirst p f l).length = l.length := by
  intro l
  induction l with
  | nil => rfl
  | cons x xs ih => cases hp : p x <;> simp [replaceFirst, hp, ih]

lemma replaceFirst_filter_length {α : Type} {p q : α → Bool} {f : α → α}
    (hf : ∀ x, q (f x) = q x) :
    ∀ l : List α, ((replaceFirst p f l).filter q).length = (l.filter q).length := by
  intro l
  induction l with
  | nil => rfl
  | cons x xs ih =>
    cases hp : p x
    · cases hq : q x <;> simp [replaceFirst, hp, List.filter_cons, hq, ih]
    · cases hq : q x <;> simp [replaceFirst, hp, List.filter_cons, hq, hf]

lemma scopeUnion_toFinset (a b : List String) :
    (scopeUnion a b).toFinset = a.toFinset ∪ b.toFinset := by
  ext x
  simp [scopeUnion, List.mem_dedup]

lemma add_scope_user_id (t : AuthToken) (s : List String) :
    (t.add_scope s).user_id = t.user_id := rfl

lemma add_scope_client_id (t : AuthToken) (s : List String) :
    (t.add_scope s).client_id = t.client_id := rfl

lemma oauth_make_token_authcodes (db : DB) (env : Env) (user : Option Nat)
    (client : Client) (scope : List String) :
    (oauth_make_token db env user client scope).2.authcodes = db.authcodes := by
  unfold oauth_make_token
  cases db.authtokens.find? (tokenPred user client.id) <;> rfl

lemma validateScopeItem_isSome_of_trusted {db : DB} {client : Client}
    {item : String} {r : Resource} (hres : itemResource db item = some r)
    (htr : r.trusted = true) (hct : client.trusted = false) :
    ∃ d, validateScopeItem db client item = some d := by
  unfold itemResource at hres
  unfold validateScopeItem
  by_cases hid : (item == "id" || item == "email") = true
  · rw [if_pos hid] at hres; cases hres
  · rw [if_neg hid] at hres
    rw [if_neg hid]
    by_cases hsl : (pyContainsChar item (Char.ofNat 47)) = true
    · rw [if_pos hsl] at hres
      rw [if_pos hsl]
      cases hsp : pySplit item (Char.ofNat 47) with
      | nil => rw [hsp] at hres; exact Option.noConfusion hres
      | cons a tl =>
        cases tl with
        | nil => rw [hsp] at hres; exact Option.noConfusion hres
        | cons b tl2 =>
          cases tl2 with
          | cons c tl3 => rw [hsp] at hres; exact Option.noConfusion hres
          | nil =>
            rw [hsp] at hres
            have hfind : db.resources.find? (fun rr => rr.name == a) = some r := hres
            exact ⟨"This application does not have access to resource \x27"
              ++ a ++ "\x27 in scope", by simp [hfind, htr, hct]⟩
    · rw [if_neg hsl] at hres
      rw [if_neg hsl]
      exact ⟨"This application does not have access to resource \x27"
        ++ item ++ "\x27 in scope", by simp [hres, htr, hct]⟩

lemma validateScopeItems_isSome_of_mem {db : DB} {client : Client}
    {scope : List String} {item : String}
    (hmem : item ∈ scope) (hitem : ∃ d, validateScopeItem db client item = some d) :
    ∃ d, validateScopeItems db client scope = some d := by
  induction scope with
  | nil => cases hmem
  | cons x rest ih =>
    unfold validateScopeItems
    cases hx : validateScopeItem db client x with
    | some e => exact ⟨e, rfl⟩
    | none =>
      rcases List.mem_cons.mp hmem with h | h
      · rcases hitem with ⟨d, hd⟩
        rw [h] at hd
        rw [hx] at hd
        cases hd
      · exact ih h

lemma oauth_make_token_authtokens_some {db : DB} {env : Env} {user : Option Nat}
    {client : Client} {scope : List String} {tok : AuthToken}
    (hfind : db.authtokens.find? (tokenPred user client.id) = some tok) :
    (oauth_make_token db env user client scope).2.authtokens
      = replaceFirst (tokenPred user client.id) (fun t => t.add_scope scope)
          db.authtokens := by
  unfold oauth_make_token
  rw [hfind]

lemma oauth_make_token_authtokens_none {db : DB} {env : Env} {user : Option Nat}
    {client : Client} {scope : List String}
    (hfind : db.authtokens.find? (tokenPred user client.id) = none) :
    (oauth_make_token db env user client scope).2.authtokens
      = db.authtokens ++
        [AuthToken.init
          { id := env.freshId, user_id := user, client_id := client.id,
            scope := scope }
          env.freshToken env.freshRefresh env.freshSecret] := by
  unfold oauth_make_token
  rw [hfind]

lemma splitChars_ne_nil (sep : Char) : ∀ l : List Char, splitChars sep l ≠ []
  | [] => by simp [splitChars]
  | c :: cs => by
    unfold splitChars
    by_cases h : (c == sep) = true
    · simp [h]
    · simp only [h, if_false]
      cases hr : splitChars sep cs <;> simp

/-- A Python single-character split never yields an empty list, so the
`if not scope` check of Validation 3.1 can never fire. -/
lemma pySplit_isEmpty (s : String) (sep : Char) : (pySplit s sep).isEmpty = false := by
  unfold pySplit
  cases h : splitChars sep s.toList with
  | nil => exact absurd h (splitChars_ne_nil sep s.toList)
  | cons a l => simp

/-- Shared `/token` validations: an authorization_code request with a
well-formed client credential reaches the authorization_code branch. -/
lemma oauth_token_to_authcode {db : DB} {env : Env} {req : TokenRequest}
    {client : Client}
    (hba : req.basicAuth = none)
    (hgt : req.grant_type = some "authorization_code")
    (hcid : req.client_id = some client.key)
    (hkey : (client.key == "") = false)
    (hsec : req.form_client_secret = some client.secret)
    (hsecne : (client.secret == "") = false)
    (hfind : db.clients.find? (fun c => c.key == client.key) = some client)
    (hact : client.active = true) :
    oauth_token db env req
      = authorizationCodeGrant db env req client
          (pySplit (req.scope_param.getD "") (Char.ofNat 32)) := by
  unfold oauth_token
  simp [hba, hgt, hcid, hsec, hfind, hact, optTruthy, hkey, hsecne]

/-- Shared `/token` validations: a password request by a trusted client
with a well-formed client credential reaches the password branch. -/
lemma oauth_token_to_password {db : DB} {env : Env} {req : TokenRequest}
    {client : Client}
    (hba : req.basicAuth = none)
    (hgt : req.grant_type = some "password")
    (hcid : req.client_id = some client.key)
    (hkey : (client.key == "") = false)
    (hsec : req.form_client_secret = some client.secret)
    (hsecne : (client.secret == "") = false)
    (hfind : db.clients.find? (fun c => c.key == client.key) = some client)
    (hact : client.active = true)
    (htrust : client.trusted = true) :
    oauth_token db env req
      = passwordGrant db env req client
          (pySplit (req.scope_param.getD "") (Char.ofNat 32)) := by
  unfold oauth_token
  simp [hba, hgt, hcid, hsec, hfind, hact, optTruthy, hkey, hsecne, htrust]

/-- The authorization_code branch on an expired code: the row is deleted
and the request is answered with `invalid_grant`. -/
lemma authcode_grant_expired {db : DB} {env : Env} {req : TokenRequest}
    {client : Client} {authcode : AuthCode} {scope : List String}
    (hcode : req.code = some authcode.code)
    (hacfind : db.authcodes.find?
        (fun ac => ac.code == authcode.code && ac.client_id == client.id)
      = some authcode)
    (hexp : authcode.created_at < env.now - 60) :
    authorizationCodeGrant db env req client scope
      = (TokenOutcome.tokError "invalid_grant" (some "Expired auth code"),
         { db with authcodes := db.authcodes.filter (fun ac => ac.id != authcode.id) }) := by
  unfold authorizationCodeGrant
  rw [hcode]
  simp only [Option.some_bind, hacfind]
  rw [if_pos hexp]

/-- The authorization_code branch on a live code with a blank-free subset
scope and a matching redirect URI: the grant succeeds with the token made
for the code's user over the code's own scope. -/
lemma authcode_grant_success {db : DB} {env : Env} {req : TokenRequest}
    {client : Client} {authcode : AuthCode} {scope : List String}
    (hcode : req.code = some authcode.code)
    (hacfind : db.authcodes.find?
        (fun ac => ac.code == authcode.code && ac.client_id == client.id)
      = some authcode)
    (hexp : ¬(authcode.created_at < env.now - 60))
    (hne : scope.isEmpty = false)
    (hhead : (scope.headD "" == "") = false)
    (hsub : scope.all (fun s => authcode.scope.contains s) = true)
    (hruri : req.redirect_uri = some authcode.redirect_uri) :
    authorizationCodeGrant db env req client scope
      = oauth_token_success
          (oauth_make_token db env (some authcode.user_id) client authcode.scope).2
          (oauth_make_token db env (some authcode.user_id) client authcode.scope).1 := by
  have h1 : ¬((scope.isEmpty || (scope.headD "" == "")) = true) := by
    rw [hne, hhead]
    decide
  have h2 : ¬((!(scope.all (fun s => authcode.scope.contains s))) = true) := by
    rw [hsub]
    decide
  unfold authorizationCodeGrant
  rw [hcode]
  simp only [Option.some_bind, hacfind]
  rw [if_neg hexp, if_neg h1, if_neg h2]
  simp [hruri]

/-- Pipeline of `oauth_authorize` up to the scope loop: when the client,
permission, activity, redirect and response_type validations all pass and
the scope loop fails, the request is answered with an `invalid_scope`
redirect to the client's registered URI. -/
lemma oauth_authorize_scope_error {db : DB} {env : Env} {userId : Nat}
    {req : AuthRequest} {client : Client} {d : String}
    (hcid : req.client_id = some client.key)
    (hkey : (client.key == "") = false)
    (hfind : db.clients.find? (fun c => c.key == client.key) = some client)
    (hlogin : client.allow_any_login = true)
    (hact : client.active = true)
    (hruri : req.redirect_uri = none)
    (hrt : req.response_type = some "code")
    (hval : validateScopeItems db client
        (pySplit (req.scope_param.getD "") (Char.ofNat 32)) = some d) :
    oauth_authorize db env userId req
      = (AuthOutcome.errorRedirect client.redirect_uri "invalid_scope" (some d), db) := by
  unfold oauth_authorize
  simp [hcid, hkey, hfind, hlogin, hact, hruri, hrt, hval, optTruthy, pySplit_isEmpty]

/-- Pipeline of `oauth_authorize` for a GET request by a trusted client:
when every validation passes the consent step is skipped and a fresh code
is minted and persisted immediately. -/
lemma oauth_authorize_trusted_get {db : DB} {env : Env} {userId : Nat}
    {req : AuthRequest} {client : Client}
    (hmethod : req.method = Method.GET)
    (htrusted : client.trusted = true)
    (hcid : req.client_id = some client.key)
    (hkey : (client.key == "") = false)
    (hfind : db.clients.find? (fun c => c.key == client.key) = some client)
    (hlogin : client.allow_any_login = true)
    (hact : client.active = true)
    (hruri : req.redirect_uri = none)
    (hrt : req.response_type = some "code")
    (hval : validateScopeItems db client
        (pySplit (req.scope_param.getD "") (Char.ofNat 32)) = none) :
    oauth_authorize db env userId req
      = oauth_auth_success db env userId client client.redirect_uri
          (pySplit (req.scope_param.getD "") (Char.ofNat 32)) := by
  have hm : (Method.GET == Method.GET) = true := rfl
  unfold oauth_authorize
  simp [hcid, hkey, hfind, hlogin, hact, hruri, hrt, hval, optTruthy, pySplit_isEmpty,
    hmethod, htrusted, hm]

/-! ### Concrete fixtures for witnesses and counterexamples -/

/-- A registered active untrusted client application. -/
def exClient : Client :=
  { id := 1, key := "ckey", secret := "csecret", redirect_uri := "http://cb",
    active := true, allow_any_login := true, trusted := false }

/-- The same client marked trusted. -/
def exTrusted : Client :=
  { exClient with trusted := true }

/-- A pending authorization code for user 7 bound to `exClient`, minted at
time 0 with scope `id`. -/
def exAuthCode : AuthCode :=
  { id := 10, user_id := 7, client_id := 1, code := "authcode1", scope := ["id"],
    redirect_uri := "http://cb", used := false, created_at := 0 }

/-- Store holding `exClient` and `exAuthCode`. -/
def exDB : DB :=
  { clients := [exClient], resources := [], resourceactions := [],
    authcodes := [exAuthCode], authtokens := [], permissions := [] }

/-- The same store with the client marked trusted. -/
def exTrustedDB : DB :=
  { exDB with clients := [exTrusted] }

/-- Environment 30 seconds after `exAuthCode` was minted; `alice` (user 1,
password `pw`) is the only known user. -/
def exEnv : Env :=
  { now := 30, hostname := fun _ => none,
    getuser := fun u => if u == "alice" then some 1 else none,
    password_is := fun uid p => uid == 1 && p == "pw",
    freshCode := "fc", freshToken := "ft1", freshRefresh := "fr1",
    freshSecret := "fs1", freshId := 100 }

/-- A well-formed `/token` redemption request for `exAuthCode`. -/
def exTokReq : TokenRequest :=
  { grant_type := some "authorization_code", client_id := some "ckey",
    basicAuth := none, form_client_secret := some "csecret",
    scope_param := some "id", code := some "authcode1",
    redirect_uri := some "http://cb", username := none, password := none }

/-- An `/auth` request for `exClient` with an empty `scope` parameter. -/
def exAuthReqEmptyScope : AuthRequest :=
  { method := Method.GET, response_type := some "code", client_id := some "ckey",
    redirect_uri := none, scope_param := some "", formValid := false,
    formAccept := false, formDeny := false }

/-- `exTokReq` with the `scope` form field absent. -/
def exTokReqNoScope : TokenRequest :=
  { exTokReq with scope_param := none }

/-- A POST `/auth` request by the trusted client with scope `id` and no
valid consent-form submission. -/
def exAuthReqPostId : AuthRequest :=
  { exAuthReqEmptyScope with method := Method.POST, scope_param := some "id" }

/-- A password-grant `/token` request with an unknown username. -/
def exPwReqUnknownUser : TokenRequest :=
  { grant_type := some "password", client_id := some "ckey",
    basicAuth := none, form_client_secret := some "csecret",
    scope_param := some "id", code := none,
    redirect_uri := none, username := some "bob", password := some "x" }

/-- A password-grant `/token` request with a known username and a wrong
password. -/
def exPwReqWrongPassword : TokenRequest :=
  { exPwReqUnknownUser with username := some "alice", password := some "wrong" }

/-- `exEnv` at 59 seconds after `exAuthCode` was minted. -/
def exEnv59 : Env :=
  { exEnv with now := 59 }

/-- `exEnv` at 61 seconds after `exAuthCode` was minted. -/
def exEnv61 : Env :=
  { exEnv with now := 61 }

/-- A GET `/auth` request for scope `id`. -/
def exAuthReqGetId : AuthRequest :=
  { exAuthReqEmptyScope with scope_param := some "id" }

/-- A resource marked trusted, provided by some client. -/
def exResTrusted : Resource :=
  { id := 3, name := "tres", client_id := 1, siteresource := false, trusted := true }

/-- Store holding the untrusted `exClient` and the trusted resource. -/
def exDBTres : DB :=
  { exDB with resources := [exResTrusted] }

/-- A GET `/auth` request whose scope names the trusted resource. -/
def exAuthReqTres : AuthRequest :=
  { exAuthReqEmptyScope with scope_param := some "id tres" }

/-- An existing token row for (user 7, `exClient`) with scope `id`. -/
def exToken : AuthToken :=
  { id := 50, user_id := some 7, client_id := 1, token := "tok0",
    token_type := "bearer", secret := some "sec0", scope := ["id"],
    validity := 0, refresh_token := "ref0" }

/-- Store holding `exClient` and the existing token `exToken`. -/
def exDBTok : DB :=
  { exDB with authtokens := [exToken] }

/-! ### Claims -/

/-- C1: the claim states that an authorization code is redeemable at most
once and is destroyed or marked used at redemption. The code violates
this: the success path of the authorization_code branch of `oauth_token`
neither deletes the `AuthCode` row nor sets its `used` flag (the model's
`used` column is never written by the views), so presenting the same code
twice within its 60-second window succeeds both times instead of
answering `invalid_grant`, and the code row is still present afterwards. -/
theorem c1_code_redeemable_twice :
    (oauth_token exDB exEnv exTokReq).1
      = TokenOutcome.tokSuccess "ft1" "bearer" ["id"] ∧
    (oauth_token (oauth_token exDB exEnv exTokReq).2 exEnv exTokReq).1
      = TokenOutcome.tokSuccess "ft1" "bearer" ["id"] ∧
    (oauth_token (oauth_token exDB exEnv exTokReq).2 exEnv exTokReq).2.authcodes
      = exDB.authcodes := by
  refine ⟨by decide, by decide, by decide⟩

/-- C3: `oauth_make_token` preserves the at-most-one-token-per-(user,
client) invariant: it mutates the existing row when one exists (row count
unchanged) and appends a fresh row only when none exists (row count grows
by one, and that pair had no row). -/
theorem c3_at_most_one_token_per_pair (db : DB) (env : Env) (user : Option Nat)
    (client : Client) (scope : List String)
    (h : tokenPairUnique db.authtokens) :
    tokenPairUnique (oauth_make_token db env user client scope).2.authtokens ∧
    ((db.authtokens.find? (tokenPred user client.id)).isSome →
      (oauth_make_token db env user client scope).2.authtokens.length
        = db.authtokens.length) ∧
    (db.authtokens.find? (tokenPred user client.id) = none →
      (oauth_make_token db env user client scope).2.authtokens.length
        = db.authtokens.length + 1) := by
  cases hfind : db.authtokens.find? (tokenPred user client.id) with
  | some tok =>
    rw [oauth_make_token_authtokens_some hfind]
    refine ⟨?_, fun _ => replaceFirst_length _ _ _, fun hnone => ?_⟩
    · intro u c
      rw [@replaceFirst_filter_length AuthToken (tokenPred user client.id)
        (fun t => t.user_id == u && t.client_id == c)
        (fun t => t.add_scope scope) (fun x => rfl) db.authtokens]
      exact h u c
    · exact Option.noConfusion hnone
  | none =>
    rw [oauth_make_token_authtokens_none hfind]
    refine ⟨?_, fun hsome => ?_, fun _ => by simp⟩
    · intro u c
      rw [List.filter_append, List.length_append]
      cases hq : (fun t : AuthToken => t.user_id == u && t.client_id == c)
          (AuthToken.init
            { id := env.freshId, user_id := user, client_id := client.id,
              scope := scope }
            env.freshToken env.freshRefresh env.freshSecret) with
      | false =>
        simp only [List.filter_cons, List.filter_nil, hq]
        simpa using h u c
      | true =>
        have hu : user = u := by
          have := (Bool.and_eq_true _ _).mp hq
          exact eq_of_beq this.1
        have hc : client.id = c := by
          have := (Bool.and_eq_true _ _).mp hq
          exact eq_of_beq this.2
        subst hu
        subst hc
        have hnil : db.authtokens.filter
            (fun t => t.user_id == user && t.client_id == client.id) = [] := by
          rw [List.filter_eq_nil_iff]
          intro a ha
          have := List.find?_eq_none.mp hfind a ha
          simpa [tokenPred] using this
        rw [hnil]
        simp [List.filter_cons, hq]
    · simp at hsome

/-- C3 witness: starting from an empty token table (trivially unique), a
client_credentials-style issuance keeps the invariant and adds one row. -/
theorem c3_witness :
    tokenPairUnique exDB.authtokens ∧
    tokenPairUnique (oauth_make_token exDB exEnv (some 7) exClient ["id"]).2.authtokens :=
  have h : tokenPairUnique exDB.authtokens := fun u c => by simp [exDB, exEnv]
  ⟨h, (c3_at_most_one_token_per_pair exDB exEnv (some 7) exClient ["id"] h).1⟩

/-- C4: when a token row already exists for the pair, issuance merges the
requested scope into it by exact set union, merging a scope into itself
is a no-op, and the existing `token` identifier is kept (no fresh token
value is generated). -/
theorem c4_scope_merge_is_union (db : DB) (env : Env) (user : Option Nat)
    (client : Client) (scope : List String) (tok : AuthToken)
    (hfind : db.authtokens.find? (tokenPred user client.id) = some tok) :
    (oauth_make_token db env user client scope).1.scope.toFinset
      = tok.scope.toFinset ∪ scope.toFinset ∧
    (tok.add_scope tok.scope).scope.toFinset = tok.scope.toFinset ∧
    (oauth_make_token db env user client scope).1.token = tok.token := by
  unfold oauth_make_token
  rw [hfind]
  refine ⟨?_, ?_, rfl⟩
  · exact scopeUnion_toFinset tok.scope scope
  · rw [AuthToken.add_scope]
    show (scopeUnion tok.scope tok.scope).toFinset = tok.scope.toFinset
    rw [scopeUnion_toFinset]
    exact Finset.union_self _

/-- C4 witness: merging scope `email` into the existing `id` token of
`exDBTok` yields the union, self-merge is a no-op, and the stored token
identifier survives. -/
theorem c4_witness :
    exDBTok.authtokens.find? (tokenPred (some 7) exClient.id) = some exToken ∧
    (oauth_make_token exDBTok exEnv (some 7) exClient ["email"]).1.scope.toFinset
      = exToken.scope.toFinset ∪ (["email"] : List String).toFinset ∧
    (exToken.add_scope exToken.scope).scope.toFinset = exToken.scope.toFinset ∧
    (oauth_make_token exDBTok exEnv (some 7) exClient ["email"]).1.token
      = exToken.token :=
  have h := c4_scope_merge_is_union exDBTok exEnv (some 7) exClient ["email"] exToken rfl
  ⟨rfl, h.1, h.2.1, h.2.2⟩

/-- C6: the claim states that an authorization_code `/token` request with
no scope supplied proceeds using the code's own bound scope. The code
violates this (and its own `Scope not provided` comment): the absent
scope field parses to `[""]`, which trips the blank-scope guard, so the
request is rejected with `invalid_scope` instead of proceeding. -/
theorem c6_missing_scope_rejected :
    oauth_token exDB exEnv exTokReqNoScope
      = (TokenOutcome.tokError "invalid_scope" (some "Scope is blank"), exDB) := by
  decide

/-- C7: the claim states that an `/auth` request with an absent or empty
scope fails with `invalid_request`. The code violates this: the empty
scope parameter splits to `[""]`, a non-empty (hence truthy) list, so the
`Scope not specified` check of Validation 3.1 can never fire and the
request instead fails in the scope loop with `invalid_scope` over the
empty-named resource. -/
theorem c7_empty_scope_yields_invalid_scope :
    oauth_authorize exDB exEnv 7 exAuthReqEmptyScope
      = (AuthOutcome.errorRedirect "http://cb" "invalid_scope"
          (some "Unknown resource \x27\x27 in scope"), exDB) := by
  decide

/-- C8 counterexample: a POST `/auth` request by a trusted client that
passes every validation (scope `id`), with no covering token and no valid
consent-form submission, renders the consent screen — refuting the claim
that a consent screen is never rendered for a trusted client regardless
of HTTP method. -/
theorem c8_counterexample_post_renders_consent :
    oauth_authorize exTrustedDB exEnv 7 exAuthReqPostId
      = (AuthOutcome.renderForm, exTrustedDB) := by
  decide

/-- C9 counterexample: two password-grant requests by the same trusted
client — one with an unknown username, one with a known username and a
wrong password — both answer with error code `invalid_client` but with
different response bodies (`No such user` vs `Password mismatch`), so the
responses are not identical and the caller can tell the cases apart. -/
theorem c9_counterexample_distinct_bodies :
    (oauth_token exTrustedDB exEnv exPwReqUnknownUser).1
      = TokenOutcome.tokError "invalid_client" (some "No such user") ∧
    (oauth_token exTrustedDB exEnv exPwReqWrongPassword).1
      = TokenOutcome.tokError "invalid_client" (some "Password mismatch") ∧
    (oauth_token exTrustedDB exEnv exPwReqUnknownUser).1
      ≠ (oauth_token exTrustedDB exEnv exPwReqWrongPassword).1 := by
  refine ⟨by decide, by decide, by decide⟩

/-- C2: the 60-second expiry window of `/token` authorization_code
redemption: with an otherwise valid redemption request, at `T+59` seconds
the expiry check passes and the grant succeeds with no code row deleted,
while at `T+61` seconds the request is rejected with `invalid_grant` and
the code row is deleted, so an expired code is never reusable. -/
theorem c2_sixty_second_expiry (db : DB) (env : Env) (req : TokenRequest)
    (client : Client) (authcode : AuthCode)
    (hba : req.basicAuth = none)
    (hgt : req.grant_type = some "authorization_code")
    (hcid : req.client_id = some client.key)
    (hkey : client.key ≠ "")
    (hsec : req.form_client_secret = some client.secret)
    (hsecne : client.secret ≠ "")
    (hfind : db.clients.find? (fun c => c.key == client.key) = some client)
    (hact : client.active = true)
    (hcode : req.code = some authcode.code)
    (hacfind : db.authcodes.find?
        (fun ac => ac.code == authcode.code && ac.client_id == client.id)
      = some authcode)
    (hhead : ((pySplit (req.scope_param.getD "") (Char.ofNat 32)).headD "" == "")
      = false)
    (hsub : (pySplit (req.scope_param.getD "") (Char.ofNat 32)).all
        (fun s => authcode.scope.contains s) = true)
    (hruri : req.redirect_uri = some authcode.redirect_uri) :
    (env.now = authcode.created_at + 59 →
      ∃ t ty sc, (oauth_token db env req).1 = TokenOutcome.tokSuccess t ty sc ∧
        (oauth_token db env req).2.authcodes = db.authcodes) ∧
    (env.now = authcode.created_at + 61 →
      (oauth_token db env req).1
          = TokenOutcome.tokError "invalid_grant" (some "Expired auth code") ∧
        (oauth_token db env req).2.authcodes
          = db.authcodes.filter (fun ac => ac.id != authcode.id)) := by
  have hkey' : (client.key == "") = false := beq_eq_false_iff_ne.mpr hkey
  have hsecne' : (client.secret == "") = false := beq_eq_false_iff_ne.mpr hsecne
  rw [oauth_token_to_authcode hba hgt hcid hkey' hsec hsecne' hfind hact]
  constructor
  · intro hnow
    have hexp : ¬(authcode.created_at < env.now - 60) := by
      rw [hnow]
      omega
    rw [authcode_grant_success hcode hacfind hexp (pySplit_isEmpty _ _) hhead hsub hruri]
    exact ⟨_, _, _, rfl,
      oauth_make_token_authcodes db env (some authcode.user_id) client authcode.scope⟩
  · intro hnow
    have hexp : authcode.created_at < env.now - 60 := by
      rw [hnow]
      omega
    rw [authcode_grant_expired hcode hacfind hexp]
    exact ⟨rfl, rfl⟩

/-- C2 witness: redeeming `exAuthCode` (minted at 0) at 59 seconds
succeeds without deleting the code row; at 61 seconds it is rejected as
`invalid_grant` and the row is deleted. -/
theorem c2_witness :
    (∃ t ty sc, (oauth_token exDB exEnv59 exTokReq).1 = TokenOutcome.tokSuccess t ty sc ∧
        (oauth_token exDB exEnv59 exTokReq).2.authcodes = exDB.authcodes) ∧
    ((oauth_token exDB exEnv61 exTokReq).1
        = TokenOutcome.tokError "invalid_grant" (some "Expired auth code") ∧
      (oauth_token exDB exEnv61 exTokReq).2.authcodes
        = exDB.authcodes.filter (fun ac => ac.id != exAuthCode.id)) :=
  ⟨(c2_sixty_second_expiry exDB exEnv59 exTokReq exClient exAuthCode rfl rfl rfl
      (by decide) rfl (by decide) (by decide) rfl rfl (by decide) (by decide) (by decide)
      rfl).1 (by decide),
   (c2_sixty_second_expiry exDB exEnv61 exTokReq exClient exAuthCode rfl rfl rfl
      (by decide) rfl (by decide) (by decide) rfl rfl (by decide) (by decide) (by decide)
      rfl).2 (by decide)⟩

/-- C5: an untrusted client can never obtain scope over a trusted
resource: for every `/auth` request that reaches the scope loop, every
user, and every position of the offending item in the scope list, if some
scope item names a resource marked trusted while the client is untrusted,
the request fails with an `invalid_scope` error redirect. -/
theorem c5_untrusted_client_trusted_resource (db : DB) (env : Env) (userId : Nat)
    (req : AuthRequest) (client : Client) (item : String) (r : Resource)
    (hcid : req.client_id = some client.key)
    (hkey : client.key ≠ "")
    (hfind : db.clients.find? (fun c => c.key == client.key) = some client)
    (hlogin : client.allow_any_login = true)
    (hact : client.active = true)
    (hruri : req.redirect_uri = none)
    (hrt : req.response_type = some "code")
    (hmem : item ∈ pySplit (req.scope_param.getD "") (Char.ofNat 32))
    (hres : itemResource db item = some r)
    (htr : r.trusted = true)
    (hct : client.trusted = false) :
    ∃ d, oauth_authorize db env userId req
      = (AuthOutcome.errorRedirect client.redirect_uri "invalid_scope" (some d), db) := by
  obtain ⟨d, hd⟩ := validateScopeItems_isSome_of_mem hmem
    (validateScopeItem_isSome_of_trusted hres htr hct)
  exact ⟨d, oauth_authorize_scope_error hcid (beq_eq_false_iff_ne.mpr hkey) hfind
    hlogin hact hruri hrt hd⟩

/-- C5 witness: the untrusted `exClient` requesting scope `id tres`, where
`tres` is a trusted resource, is rejected with `invalid_scope`. -/
theorem c5_witness :
    ∃ d, oauth_authorize exDBTres exEnv 7 exAuthReqTres
      = (AuthOutcome.errorRedirect exClient.redirect_uri "invalid_scope" (some d),
         exDBTres) :=
  c5_untrusted_client_trusted_resource exDBTres exEnv 7 exAuthReqTres exClient
    "tres" exResTrusted rfl (by decide) (by decide) rfl rfl rfl rfl (by decide)
    (by decide) rfl rfl

/-- C8 amended: for every GET `/auth` request by a trusted client with an
authenticated user that passes all validations, consent is skipped and an
authorization code is issued and persisted immediately with a redirect,
irrespective of any existing token; the trusted-client skip is limited to
GET requests (see the counterexample for POST). -/
theorem c8_trusted_get_immediate_code (db : DB) (env : Env) (userId : Nat)
    (req : AuthRequest) (client : Client)
    (hmethod : req.method = Method.GET)
    (htrusted : client.trusted = true)
    (hcid : req.client_id = some client.key)
    (hkey : client.key ≠ "")
    (hfind : db.clients.find? (fun c => c.key == client.key) = some client)
    (hlogin : client.allow_any_login = true)
    (hact : client.active = true)
    (hruri : req.redirect_uri = none)
    (hrt : req.response_type = some "code")
    (hval : validateScopeItems db client
        (pySplit (req.scope_param.getD "") (Char.ofNat 32)) = none) :
    (oauth_authorize db env userId req).1
        = AuthOutcome.successRedirect client.redirect_uri env.freshCode ∧
    (oauth_authorize db env userId req).2.authcodes
        = db.authcodes ++
          [{ id := env.freshId, user_id := userId, client_id := client.id,
             code := env.freshCode,
             scope := pySplit (req.scope_param.getD "") (Char.ofNat 32),
             redirect_uri := client.redirect_uri, used := false,
             created_at := env.now }] := by
  rw [oauth_authorize_trusted_get hmethod htrusted hcid (beq_eq_false_iff_ne.mpr hkey)
    hfind hlogin hact hruri hrt hval]
  exact ⟨rfl, rfl⟩

/-- C8 witness: a GET request for scope `id` by the trusted client skips
consent: the redirect carries the fresh code and the code row is
persisted. -/
theorem c8_witness :
    (oauth_authorize exTrustedDB exEnv 7 exAuthReqGetId).1
        = AuthOutcome.successRedirect exTrusted.redirect_uri exEnv.freshCode ∧
    (oauth_authorize exTrustedDB exEnv 7 exAuthReqGetId).2.authcodes
        = exTrustedDB.authcodes ++
          [{ id := exEnv.freshId, user_id := 7, client_id := exTrusted.id,
             code := exEnv.freshCode,
             scope := pySplit (exAuthReqGetId.scope_param.getD "") (Char.ofNat 32),
             redirect_uri := exTrusted.redirect_uri, used := false,
             created_at := exEnv.now }] :=
  c8_trusted_get_immediate_code exTrustedDB exEnv 7 exAuthReqGetId exTrusted rfl
    rfl rfl (by decide) (by decide) rfl rfl rfl rfl (by decide)

/-- C9 amended: the unknown-user and wrong-password failures of the
password grant share the error code `invalid_client`, but their response
bodies differ in `error_description` (`No such user` vs
`Password mismatch`), so the two cases are distinguishable by the body
(see the counterexample). -/
theorem c9_password_errors_share_code (db : DB) (env : Env) (req : TokenRequest)
    (client : Client) (u pw : String)
    (hba : req.basicAuth = none)
    (hgt : req.grant_type = some "password")
    (hcid : req.client_id = some client.key)
    (hkey : client.key ≠ "")
    (hsec : req.form_client_secret = some client.secret)
    (hsecne : client.secret ≠ "")
    (hfind : db.clients.find? (fun c => c.key == client.key) = some client)
    (hact : client.active = true)
    (htrust : client.trusted = true)
    (hun : req.username = some u)
    (hune : u ≠ "")
    (hpw : req.password = some pw)
    (hpwne : pw ≠ "") :
    (env.getuser u = none →
      oauth_token db env req
        = (TokenOutcome.tokError "invalid_client" (some "No such user"), db)) ∧
    (∀ uid, env.getuser u = some uid → env.password_is uid pw = false →
      oauth_token db env req
        = (TokenOutcome.tokError "invalid_client" (some "Password mismatch"), db)) := by
  have hkey' : (client.key == "") = false := beq_eq_false_iff_ne.mpr hkey
  have hsecne' : (client.secret == "") = false := beq_eq_false_iff_ne.mpr hsecne
  have hune' : (u == "") = false := beq_eq_false_iff_ne.mpr hune
  have hpwne' : (pw == "") = false := beq_eq_false_iff_ne.mpr hpwne
  rw [oauth_token_to_password hba hgt hcid hkey' hsec hsecne' hfind hact htrust]
  constructor
  · intro hgu
    unfold passwordGrant
    simp [htrust, hun, hpw, optTruthy, hune', hpwne', hgu]
  · intro uid hgu hpwd
    unfold passwordGrant
    simp [htrust, hun, hpw, optTruthy, hune', hpwne', hgu, hpwd]

/-- C9 witness: at the concrete store, an unknown username and a known
username with a wrong password both produce the `invalid_client` error
code, with their respective descriptions. -/
theorem c9_witness :
    oauth_token exTrustedDB exEnv exPwReqUnknownUser
      = (TokenOutcome.tokError "invalid_client" (some "No such user"), exTrustedDB) ∧
    oauth_token exTrustedDB exEnv exPwReqWrongPassword
      = (TokenOutcome.tokError "invalid_client" (some "Password mismatch"),
         exTrustedDB) :=
  ⟨(c9_password_errors_share_code exTrustedDB exEnv exPwReqUnknownUser exTrusted
      "bob" "x" rfl rfl rfl (by decide) rfl (by decide) (by decide) rfl rfl rfl
      (by decide) rfl (by decide)).1 (by decide),
   (c9_password_errors_share_code exTrustedDB exEnv exPwReqWrongPassword exTrusted
      "alice" "wrong" rfl rfl rfl (by decide) rfl (by decide) (by decide) rfl rfl rfl
      (by decide) rfl (by decide)).2 1 (by decide) (by decide)⟩

/-- C10: the `AuthToken` constructor first applies the caller-supplied
keyword arguments and then unconditionally overwrites `token`,
`refresh_token` and `secret` with freshly generated values, so no
caller-chosen credential value is ever stored while the remaining kwargs
are preserved. -/
theorem c10_constructor_overwrites_credentials (kwargs : AuthTokenKwargs)
    (ft fr fs : String) :
    (AuthToken.init kwargs ft fr fs).token = ft ∧
    (AuthToken.init kwargs ft fr fs).refresh_token = fr ∧
    (AuthToken.init kwargs ft fr fs).secret = some fs ∧
    (AuthToken.init kwargs ft fr fs).user_id = kwargs.user_id ∧
    (AuthToken.init kwargs ft fr fs).client_id = kwargs.client_id ∧
    (AuthToken.init kwargs ft fr fs).scope = kwargs.scope ∧
    (AuthToken.init kwargs ft fr fs).token_type = kwargs.token_type :=
  ⟨rfl, rfl, rfl, rfl, rfl, rfl, rfl⟩

end Lastuser
